import Mathlib

/-!
Shallow embedding of `src/build.py` (pyscript-template packager).

Paths are modelled as strings (Python `pathlib.Path` values in already-
normalized form: no `.` segments, no trailing separators). Python `dict`s
are modelled as association lists with insertion-order semantics, matching
CPython dictionaries. Filesystem reads are modelled by passing the file's
content as an `Option String` argument (`none` = the read raises an I/O
error). `string.Template.substitute` is modelled as literal replacement of
each `$name` placeholder, and `json.dumps` on strings is reproduced
including its escaping rules.
-/

/-- Boolean prefix test on character lists (used to model `str.startswith`
and `Path.is_relative_to` on normalized path strings). -/
def isPrefixOfL : List Char → List Char → Bool
  | [], _ => true
  | _ :: _, [] => false
  | a :: as, b :: bs => a = b && isPrefixOfL as bs

/-- Models `str.startswith`. -/
def strStarts (s pre : String) : Bool :=
  isPrefixOfL pre.data s.data

/-- Splits a character list at every slash character (models
`str.split` with separator slash, as used by `posixpath.normpath`). -/
def splitSlash : List Char → List Char → List String
  | [], cur => [⟨cur.reverse⟩]
  | c :: rest, cur =>
    if c = '/' then ⟨cur.reverse⟩ :: splitSlash rest [] else splitSlash rest (c :: cur)

/-- Models `sep.join(parts)`. -/
def joinSep (sep : String) : List String → String
  | [] => ""
  | [a] => a
  | a :: rest => a ++ sep ++ joinSep sep rest

/-- Single pass of non-overlapping left-to-right pattern replacement over a
character list. The `skip` counter consumes the remaining characters of a
pattern occurrence that was already matched. -/
def replaceAux (pat rep : List Char) : List Char → Nat → List Char
  | [], _ => []
  | _ :: rest, Nat.succ k => replaceAux pat rep rest k
  | c :: rest, 0 =>
    if pat.length != 0 && ((c :: rest).take pat.length == pat) then
      rep ++ replaceAux pat rep rest (pat.length - 1)
    else
      c :: replaceAux pat rep rest 0

/-- Models Python `str.replace` (all non-overlapping occurrences,
left to right). -/
def substOne (s pat rep : String) : String :=
  ⟨replaceAux pat.data rep.data s.data 0⟩

/-- Models `string.Template(t).substitute(ctx)` for templates whose
placeholders are written `$name` and whose substituted values contain no
placeholders themselves (the only form used by the program's templates). -/
def substAll (t : String) (ctx : List (String × String)) : String :=
  ctx.foldl (fun acc kv => substOne acc ("$" ++ kv.1) kv.2) t

/-- Lower-case hexadecimal digit. -/
def hexDigit (n : Nat) : Char :=
  if n < 10 then Char.ofNat (48 + n) else Char.ofNat (87 + n)

/-- Four lower-case hex digits, as in a JSON escape. -/
def hex4 (n : Nat) : String :=
  ⟨[hexDigit (n / 4096 % 16), hexDigit (n / 256 % 16), hexDigit (n / 16 % 16), hexDigit (n % 16)]⟩

/-- Escaping of one character exactly as CPython `json.dumps` does with its
default `ensure_ascii=True` (characters outside space..tilde are escaped). -/
def jsonEscChar (c : Char) : String :=
  if c = '"' then "\\\""
  else if c = '\\' then "\\\\"
  else if c = '\n' then "\\n"
  else if c = '\r' then "\\r"
  else if c = '\t' then "\\t"
  else if c.toNat = 8 then "\\b"
  else if c.toNat = 12 then "\\f"
  else if c.toNat < 32 || c.toNat > 126 then
    if c.toNat < 65536 then "\\u" ++ hex4 c.toNat
    else
      "\\u" ++ hex4 (55296 + (c.toNat - 65536) / 1024) ++
        "\\u" ++ hex4 (56320 + (c.toNat - 65536) % 1024)
  else ⟨[c]⟩

/-- Models `json.dumps` applied to a string. -/
def jsonDumps (s : String) : String :=
  "\"" ++ String.join (s.data.map jsonEscChar) ++ "\""

/-- Number of bytes of the UTF-8 encoding of one character (as produced by
Python `str.encode` with encoding utf-8). -/
def charUtf8Len (c : Char) : Nat :=
  if c.toNat < 128 then 1 else if c.toNat < 2048 then 2 else if c.toNat < 65536 then 3 else 4

/-- Byte length of `s.encode("utf-8")`. -/
def utf8ByteLength (s : String) : Nat :=
  s.data.foldl (fun n c => n + charUtf8Len c) 0

/-- Membership test of a key in an insertion-ordered dictionary
(association list), models `k in d` on a Python dict. -/
def dictContains {α : Type} (l : List (String × α)) (k : String) : Bool :=
  l.any (fun p => p.1 == k)

/-- Models `d[k] = v` on a Python dict: updates in place if the key is
present, otherwise appends at the end (CPython insertion order). -/
def dictInsert {α : Type} (l : List (String × α)) (k : String) (v : α) : List (String × α) :=
  if dictContains l k then l.map (fun p => if p.1 == k then (k, v) else p) else l ++ [(k, v)]

/-- Models `del d[k]` (for a key known present) and also the no-op when the
key is absent. -/
def dictRemove {α : Type} (l : List (String × α)) (k : String) : List (String × α) :=
  l.filter (fun p => p.1 != k)

/-- Models `d.get(k)` / `d[k]` lookup. -/
def dictGet {α : Type} (l : List (String × α)) (k : String) : Option α :=
  (l.find? (fun p => p.1 == k)).map (fun p => p.2)

/-- Errors raised by the embedded code, named after the Python exception
classes that `build.py` can raise. -/
inductive PyError where
  | ioError
  | keyError
  | valueError
  | notImplementedError
  | fileNotFoundError
  deriving DecidableEq, Repr

/-- Source line 30: `_FileField(content, path)` — the cached text content of
a source file together with the source path it was read from. -/
structure FileField where
  content : String
  path : String
  deriving DecidableEq, Repr

/-- Source lines 35-38: the Virtual Archive. `files` maps destination path to
a file-backed entry, `texts` maps destination path to generated text. -/
structure ZipBuilder where
  files : List (String × FileField)
  texts : List (String × String)
  deriving DecidableEq, Repr

/-- Source lines 40-47, `ZipBuilder.add_file(file, dest)`. `content` is the
result of `open(file).read()`: `none` models a failing read (I/O error).
Note the source deletes `self.texts[file]` — keyed by the SOURCE path, not
by `dest` — and does so before the read. -/
def ZipBuilder.add_file (z : ZipBuilder) (file dest : String) (content : Option String) :
    Option PyError × ZipBuilder :=
  let z1 : ZipBuilder := { z with texts := dictRemove z.texts file }
  match content with
  | none => (some PyError.ioError, z1)
  | some c => (none, { z1 with files := dictInsert z1.files dest { content := c, path := file } })

/-- Source lines 49-55, `ZipBuilder.add_text(text, dest)`. When `dest` holds
a file-backed entry the source runs `del self.texts[dest]` — deleting from
`texts`, not `files` — which raises `KeyError` when `dest` is not also a
text entry. -/
def ZipBuilder.add_text (z : ZipBuilder) (text dest : String) : Option PyError × ZipBuilder :=
  if dictContains z.files dest then
    if dictContains z.texts dest then
      (none, { z with texts := dictInsert (dictRemove z.texts dest) dest text })
    else (some PyError.keyError, z)
  else (none, { z with texts := dictInsert z.texts dest text })

/-- Source lines 57-61, `ZipBuilder.del_entry(path)`. -/
def ZipBuilder.del_entry (z : ZipBuilder) (path : String) : ZipBuilder :=
  { files := dictRemove z.files path, texts := dictRemove z.texts path }

/-- Source lines 63-73, `ZipBuilder.get(path)`: file-backed entries shadow
text entries; a miss raises `FileNotFoundError`. -/
def ZipBuilder.get (z : ZipBuilder) (path : String) : Except PyError String :=
  match dictGet z.files path with
  | some f => Except.ok f.content
  | none =>
    match dictGet z.texts path with
    | some t => Except.ok t
    | none => Except.error PyError.fileNotFoundError

/-- Total variant of `ZipBuilder.get`, used where the source has already
checked presence (`build_zip` iterates its own keys, the server checks
`has` first). -/
def ZipBuilder.getD (z : ZipBuilder) (path : String) : String :=
  match z.get path with
  | Except.ok c => c
  | Except.error _ => ""

/-- Source lines 75-77, `ZipBuilder.has(path)`. -/
def ZipBuilder.has (z : ZipBuilder) (path : String) : Bool :=
  dictContains z.files path || dictContains z.texts path

/-- Source lines 79-93, `ZipBuilder.build_zip`: writes one archive member per
`files` entry and then one per `texts` entry, in dict iteration order, each
with the content returned by `get` at that path. The result models the list
of `(name, content)` members in the order written. -/
def ZipBuilder.build_zip (z : ZipBuilder) : List (String × String) :=
  z.files.map (fun p => (p.1, z.getD p.1)) ++ z.texts.map (fun p => (p.1, z.getD p.1))

/-- Source line 98. -/
def INDEX_LOC : String := "index.html"

/-- Source line 273. -/
def INDEX_PAGES : List String := ["index.html", "index.htm"]

/-- Source line 96: the CDN URL template applied to a runtime version. -/
def CDN (version : String) : String :=
  "https://pyscript.net/releases/" ++ version

/-- Models `Path.is_absolute` on a normalized POSIX path string. -/
def isAbsolute (p : String) : Bool :=
  strStarts p "/"

/-- Models `Path.is_relative_to` on normalized path strings. -/
def isRelativeTo (p base : String) : Bool :=
  p == base || strStarts p (base ++ "/")

/-- Models `Path.relative_to` on normalized path strings (only used when
`isRelativeTo` holds). -/
def relativeTo (p base : String) : String :=
  if p == base then "." else ⟨p.data.drop (base.data.length + 1)⟩

/-- The immutable part of a `Project` (source lines 104-115): everything
fixed at construction from the loaded configuration, plus the contents and
presence of the three template files in the config directory (the
filesystem is read-only for these during a run, so they are environment).
`toml_exists` models `toml_cfg.exists() and toml_cfg.is_file()`; likewise
`json_exists`. `runtime_remote_cdn = none` models a configuration without
the `runtime.remote_cdn` key. -/
structure Env where
  src_path : String
  project_src : String
  project_main : String
  toml_cfg : String
  json_cfg : String
  index_template : String
  toml_exists : Bool
  json_exists : Bool
  toml_text : String
  json_text : String
  index_text : String
  runtime_pyscript : String
  runtime_script_type : String
  runtime_remote_cdn : Option Bool

/-- The mutable part of a `Project`: the Virtual Archive, the Tracked File
List (`self.files`, source line 109) and the current manifest destination
filename (`self.pyscript_config`, source line 110). -/
structure St where
  zip : ZipBuilder
  files : List String
  pyscript_config : String
  deriving DecidableEq, Repr

/-- The state of a freshly constructed `Project` with a fresh `ZipBuilder`
(source lines 104-110 and 324). -/
def initSt : St :=
  { zip := { files := [], texts := [] }, files := [], pyscript_config := "" }

/-- Source lines 117-128, `Project.convert_path`: `none` models the Python
`return` without a value (`None`), i.e. the path is classified special. -/
def Project.convert_path (env : Env) (path : String) : Option String :=
  if isAbsolute path then
    if !(isRelativeTo path env.src_path) then none
    else some (relativeTo path env.src_path)
  else if isRelativeTo path env.project_src then
    some (relativeTo path env.project_src)
  else some path

/-- Source lines 162-166, `Project._gen_file_entry`. -/
def Project.gen_file_entry (files : List String) (toml : Bool) : String :=
  if toml then "\n" ++ joinSep "\n" (files.map (fun pth => jsonDumps pth ++ " = ''"))
  else "\n" ++ joinSep "\n" (files.map (fun pth => jsonDumps pth ++ ": '',"))

/-- Source lines 168-171, `Project._gen_cfg_replace`. -/
def Project.gen_cfg_replace (s : St) (toml : Bool) : List (String × String) :=
  [("files_entry", Project.gen_file_entry s.files toml)]

/-- Source lines 173-181, `Project._parse_pyscript_cfg`: picks the TOML
template if present, else the JSON template (setting the manifest filename
to the literal `"pyscipt.json"` as in source line 178), else raises
`ValueError`. Returns (raised error, returned text, state after the
`self.pyscript_config` assignment). -/
def Project.parse_pyscript_cfg (env : Env) (s : St) : Option PyError × String × St :=
  if env.toml_exists then
    (none, substAll env.toml_text (Project.gen_cfg_replace s true),
      { s with pyscript_config := "pyscript.toml" })
  else if env.json_exists then
    (none, substAll env.json_text (Project.gen_cfg_replace s false),
      { s with pyscript_config := "pyscipt.json" })
  else (some PyError.valueError, "", s)

/-- The substitution context of source lines 185-193 (the entry page's
template keys). The `cdn` value is the CDN template applied to
`runtime.pyscript`; `pyscript_config` is the manifest destination filename
currently stored on the project. -/
def Project.indexContext (env : Env) (s : St) : List (String × String) :=
  [("cdn", CDN env.runtime_pyscript),
    ("script_type", env.runtime_script_type),
    ("main_script", env.project_main),
    ("pyscript_config", s.pyscript_config),
    ("extra_script_params", "")]

/-- Source lines 183-193, `Project._parse_index_html`. -/
def Project.parse_index_html (env : Env) (s : St) : String :=
  substAll env.index_text (Project.indexContext env s)

/-- Source lines 130-135, `Project._handle_unknwon` (sic): a special path
regenerates the matching derived artifact; any other path does nothing.
Argument evaluation order of line 133 is preserved: `_parse_pyscript_cfg()`
runs (updating `pyscript_config`) before `self.pyscript_config` is read. -/
def Project.handle_unknwon (env : Env) (s : St) (path : String) : Option PyError × St :=
  if path = env.toml_cfg ∨ path = env.json_cfg then
    match Project.parse_pyscript_cfg env s with
    | (some e, _, s1) => (some e, s1)
    | (none, text, s1) =>
      match s1.zip.add_text text s1.pyscript_config with
      | (e2, z) => (e2, { s1 with zip := z })
  else if path = env.index_template then
    match s.zip.add_text (Project.parse_index_html env s) INDEX_LOC with
    | (e2, z) => (e2, { s with zip := z })
  else (none, s)

/-- Source lines 137-144, `Project.add_file(path)`. `content` models the
filesystem read performed by `ZipBuilder.add_file` (`none` = unreadable).
Note the source calls `_parse_pyscript_cfg()` on line 143 and DISCARDS its
return value: only `self.pyscript_config` is updated, the archive's stored
manifest text is not. -/
def Project.add_file (env : Env) (s : St) (path : String) (content : Option String) :
    Option PyError × St :=
  match Project.convert_path env path with
  | none => Project.handle_unknwon env s path
  | some dest =>
    if !(s.zip.has dest) then
      let s1 : St := { s with files := s.files ++ [dest] }
      match Project.parse_pyscript_cfg env s1 with
      | (some e, _, s2) => (some e, s2)
      | (none, _, s2) =>
        match s2.zip.add_file path dest content with
        | (e3, z) => (e3, { s2 with zip := z })
    else
      match s.zip.add_file path dest content with
      | (e3, z) => (e3, { s with zip := z })

/-- Source lines 146-152, `Project.del_file(path)`. `self.files.remove`
raises `ValueError` when the destination is absent from the list (reachable
when the archive holds a text entry at a destination that was never
tracked); in that case the archive is left unchanged because the `remove`
raises before `del_entry` runs. -/
def Project.del_file (env : Env) (s : St) (path : String) : Option PyError × St :=
  match Project.convert_path env path with
  | none => (none, s)
  | some dest =>
    if !(s.zip.has dest) then (none, s)
    else if dest ∈ s.files then
      let s1 : St := { s with files := s.files.erase dest, zip := s.zip.del_entry dest }
      match Project.parse_pyscript_cfg env s1 with
      | (e, _, s2) => (e, s2)
    else (some PyError.valueError, s)

/-- The loop of source lines 158-160: `add_file` on every regular file under
the source root, aborting at the first raised exception. `srcFiles` lists
the regular files visited by `rglob` (directories are skipped by the
`is_file` check) together with their readable contents. -/
def Project.runAddAll (env : Env) (s : St) : List (String × Option String) →
    Option PyError × St
  | [] => (none, s)
  | f :: rest =>
    match Project.add_file env s f.1 f.2 with
    | (some e, s1) => (some e, s1)
    | (none, s1) => Project.runAddAll env s1 rest

/-- Source lines 154-160, `Project.add_src`: looking up the missing
`runtime.remote_cdn` key raises `KeyError`; a present falsy value raises
`NotImplementedError`; otherwise every source file is added. -/
def Project.add_src (env : Env) (s : St) (srcFiles : List (String × Option String)) :
    Option PyError × St :=
  match env.runtime_remote_cdn with
  | none => (some PyError.keyError, s)
  | some b =>
    if !b then (some PyError.notImplementedError, s)
    else Project.runAddAll env s srcFiles

/-- Source lines 195-198, `Project.add_templates`: line 196 EXTENDS the
Tracked File List with `Path(self.pyscript_config)` (its value before the
regeneration on line 197) and `Path(INDEX_LOC)`, then stores both derived
artifacts in the archive. -/
def Project.add_templates (env : Env) (s : St) : Option PyError × St :=
  let s1 : St := { s with files := s.files ++ [s.pyscript_config, INDEX_LOC] }
  match Project.parse_pyscript_cfg env s1 with
  | (some e, _, s2) => (some e, s2)
  | (none, text, s2) =>
    match s2.zip.add_text text s2.pyscript_config with
    | (some e, z) => (some e, { s2 with zip := z })
    | (none, z) =>
      let s3 : St := { s2 with zip := z }
      match s3.zip.add_text (Project.parse_index_html env s3) INDEX_LOC with
      | (e, z2) => (e, { s3 with zip := z2 })

/-- One step of `posixpath.normpath`'s component loop. -/
def normpathFold (isAbs : Bool) (acc : List String) (comp : String) : List String :=
  if comp = "" ∨ comp = "." then acc
  else if comp ≠ ".." ∨ (!isAbs && acc.isEmpty) ∨ acc.getLast? = some ".." then acc ++ [comp]
  else if !acc.isEmpty then acc.dropLast
  else acc

/-- Models `posixpath.normpath`. -/
def normpath (p : String) : String :=
  if p = "" then "." else
  let isAbs := strStarts p "/"
  let two := strStarts p "//" && !(strStarts p "///")
  let comps := (splitSlash p.data []).foldl (normpathFold isAbs) []
  let body := joinSep "/" comps
  let out := (if isAbs then (if two then "//" else "/") else "") ++ body
  if out = "" then "." else out

/-- Source lines 279-283, `ProjectServerHandler.parse_path`: strip one
leading slash, then normalize. -/
def ProjectServerHandler.parse_path (pth : String) : String :=
  normpath (if strStarts pth "/" then ⟨pth.data.drop 1⟩ else pth)

/-- Models `posixpath.join` of two parts as used on source line 298. -/
def posixJoin (a b : String) : String :=
  if strStarts b "/" then b
  else if a == "" then b
  else if a.data.getLast? == some '/' then a ++ b
  else a ++ "/" ++ b

/-- The observable HTTP response of one `GET`/`HEAD` request: status code,
the value of the Content-Length header (absent on the error path), and the
body (`none` when no body is written; the bytes on the wire are the UTF-8
encoding of the string). The Content-Type header is omitted: MIME guessing
is an external collaborator. -/
structure HttpResponse where
  status : Nat
  contentLength : Option Nat
  body : Option String
  deriving DecidableEq, Repr

/-- The `for ext in INDEX_PAGES` fallback loop of source lines 297-300. -/
def ProjectServerHandler.findIndexPage (z : ZipBuilder) (path : String) : Option String :=
  (INDEX_PAGES.find? (fun ext => z.has (posixJoin path ext))).map (fun ext => posixJoin path ext)

/-- Source lines 304-310: the success response for a matched path. The
Content-Length header is `str(len(content))` — the number of CHARACTERS of
the string — while the body written is `content.encode("utf-8")`. -/
def ProjectServerHandler.serveEntry (z : ZipBuilder) (path : String) (send_content : Bool) :
    HttpResponse :=
  let content := z.getD path
  { status := 200, contentLength := some content.length,
    body := if send_content then some content else none }

/-- Source lines 290-310, `ProjectServerHandler._do_get` (a project is
always attached). `send_content` is `true` for `GET`, `false` for `HEAD`. -/
def ProjectServerHandler.do_get (s : St) (reqPath : String) (send_content : Bool) :
    HttpResponse :=
  let path := ProjectServerHandler.parse_path reqPath
  if s.zip.has path then ProjectServerHandler.serveEntry s.zip path send_content
  else
    match ProjectServerHandler.findIndexPage s.zip path with
    | some p => ProjectServerHandler.serveEntry s.zip p send_content
    | none => { status := 404, contentLength := none, body := none }

/-- The harness alphabet for sequences of synchronizer mutations: each
`add` carries the content the source file would yield on a successful
read. -/
inductive FsOp where
  | add (path : String) (content : String)
  | del (path : String)
  deriving DecidableEq, Repr

/-- The filesystem path an operation refers to. -/
def FsOp.path : FsOp → String
  | FsOp.add p _ => p
  | FsOp.del p => p

/-- Applies one mutation through the synchronizer's public operations. -/
def runStep (env : Env) (s : St) : FsOp → Option PyError × St
  | FsOp.add p c => Project.add_file env s p (some c)
  | FsOp.del p => Project.del_file env s p

/-- Applies a sequence of mutations, stopping at the first raised error
(an exception aborts the watcher callback). -/
def runOps (env : Env) : St → List FsOp → Option PyError × St
  | s, [] => (none, s)
  | s, op :: rest =>
    match (runStep env s op).1 with
    | some e => (some e, (runStep env s op).2)
    | none => runOps env (runStep env s op).2 rest

/-- Reference behaviour of one list update as the spec states it: an added
destination is appended iff not yet present, a deleted one is erased. -/
def refAdd (l : List String) (d : String) : List String :=
  if d ∈ l then l else l ++ [d]

/-- Reference evolution of the Tracked File List under one operation. -/
def refStep (env : Env) (l : List String) : FsOp → List String
  | FsOp.add p _ =>
    match Project.convert_path env p with
    | none => l
    | some d => refAdd l d
  | FsOp.del p =>
    match Project.convert_path env p with
    | none => l
    | some d => l.erase d

/-- The synchronizer invariant tying the Tracked File List to the Virtual
Archive: the list equals the file-backed keys in order, no text entries
exist, and the list is duplicate-free. -/
def StInv (s : St) : Prop :=
  s.files = s.zip.files.map Prod.fst ∧ s.zip.texts = [] ∧ s.files.Nodup

/-- An empty Virtual Archive. -/
def zEmpty : ZipBuilder := { files := [], texts := [] }

/-- A concrete project environment: source root `/proj/src`, config dir
`/proj/cfg` holding only the TOML manifest template (whose text is just the
placeholder) and the entry-page template (likewise). -/
def envA : Env :=
  { src_path := "/proj/src",
    project_src := "src",
    project_main := "main.py",
    toml_cfg := "/proj/cfg/pyscript.toml.template",
    json_cfg := "/proj/cfg/pyscript.json.template",
    index_template := "/proj/cfg/index.html.template",
    toml_exists := true,
    json_exists := false,
    toml_text := "$files_entry",
    json_text := "$files_entry",
    index_text := "$pyscript_config",
    runtime_pyscript := "2024.1.1",
    runtime_script_type := "py",
    runtime_remote_cdn := some true }

/-- `envA` with only the JSON manifest template present. -/
def envJ : Env :=
  { envA with toml_exists := false, json_exists := true }

/-- `envA` with the `runtime.remote_cdn` key absent from the config. -/
def envNoCdn : Env :=
  { envA with runtime_remote_cdn := none }

/-- State after `add_file` of the single source file `/proj/src/a.py`. -/
def stA1 : St := (Project.add_file envA initSt "/proj/src/a.py" (some "print(1)")).2

/-- State after the startup flow `add_file`; `add_templates`. -/
def stA2 : St := (Project.add_templates envA stA1).2

/-- `stA2` after a further watcher event adds `/proj/src/b.py`. -/
def stC1 : St := (Project.add_file envA stA2 "/proj/src/b.py" (some "print(2)")).2

/-- `stA2` after a watcher event adds a real source file `src/index.html`,
whose destination collides with the generated entry page. -/
def stC6 : St := (Project.add_file envA stA2 "/proj/src/index.html" (some "<h1>")).2

/-- State after `add_file` of the TOML template path itself (a special
input: registers the manifest text entry without tracking it). -/
def stC4a : St := (Project.add_file envA initSt "/proj/cfg/pyscript.toml.template" none).2

/-- `stC4a` after adding a source file whose destination equals the
manifest's destination path. -/
def stC4b : St := (Project.add_file envA stC4a "/proj/src/pyscript.toml" (some "x")).2

/-- A project holding one source file `a.txt` whose content is the single
non-ASCII character e-acute (one character, two UTF-8 bytes). -/
def stC7 : St := (Project.add_file envA initSt "/proj/src/a.txt" (some "é")).2

/-- Mutation sequence exercising add, re-add, delete and re-add-after-
delete. -/
def opsW : List FsOp :=
  [FsOp.add "/proj/src/a.py" "1", FsOp.add "/proj/src/b.py" "2",
    FsOp.add "/proj/src/a.py" "3", FsOp.del "/proj/src/a.py",
    FsOp.add "/proj/src/a.py" "4"]

theorem dictContains_eq_mem {α : Type} (l : List (String × α)) (k : String) :
    dictContains l k = true ↔ k ∈ l.map Prod.fst := by
  induction l with
  | nil => simp [dictContains]
  | cons p t ih =>
    simp only [dictContains, List.any_cons, Bool.or_eq_true, beq_iff_eq, List.map_cons,
      List.mem_cons]
    constructor
    · rintro (h | h)
      · exact Or.inl h.symm
      · exact Or.inr (ih.mp h)
    · rintro (h | h)
      · exact Or.inl h.symm
      · exact Or.inr (ih.mpr h)

theorem dictContains_false_not_mem {α : Type} {l : List (String × α)} {k : String}
    (h : dictContains l k = false) : k ∉ l.map Prod.fst := by
  intro hm
  rw [← dictContains_eq_mem] at hm
  rw [h] at hm
  exact Bool.false_ne_true hm

theorem mapFst_updList {α : Type} (l : List (String × α)) (k : String) (v : α) :
    (l.map (fun p => if p.1 == k then (k, v) else p)).map Prod.fst = l.map Prod.fst := by
  induction l with
  | nil => rfl
  | cons p t ih =>
    simp only [List.map_cons, ih]
    by_cases h : p.1 = k
    · simp [h]
    · simp [beq_iff_eq, h]

theorem mapFst_dictInsert {α : Type} (l : List (String × α)) (k : String) (v : α) :
    (dictInsert l k v).map Prod.fst =
      if dictContains l k = true then l.map Prod.fst else l.map Prod.fst ++ [k] := by
  unfold dictInsert
  by_cases h : dictContains l k = true
  · rw [if_pos h, if_pos h]
    exact mapFst_updList l k v
  · rw [if_neg h, if_neg h]
    simp

theorem dictRemove_of_not_mem {α : Type} {l : List (String × α)} {k : String}
    (h : k ∉ l.map Prod.fst) : dictRemove l k = l := by
  induction l with
  | nil => rfl
  | cons p t ih =>
    simp only [List.map_cons, List.mem_cons] at h
    push_neg at h
    simp only [dictRemove, List.filter_cons]
    rw [if_pos (by simpa [bne_iff_ne, ne_comm] using h.1)]
    have := ih h.2
    simpa [dictRemove] using this

theorem mapFst_dictRemove {α : Type} {l : List (String × α)} {k : String}
    (h : (l.map Prod.fst).Nodup) :
    (dictRemove l k).map Prod.fst = (l.map Prod.fst).erase k := by
  induction l with
  | nil => rfl
  | cons p t ih =>
    rw [List.map_cons, List.nodup_cons] at h
    by_cases hk : p.1 = k
    · subst hk
      have h1 : dictRemove (p :: t) p.1 = dictRemove t p.1 := by
        simp [dictRemove, List.filter_cons]
      rw [h1, dictRemove_of_not_mem h.1, List.map_cons, List.erase_cons_head]
    · have h1 : dictRemove (p :: t) k = p :: dictRemove t k := by
        simp [dictRemove, List.filter_cons, hk]
      rw [h1, List.map_cons, List.map_cons, ih h.2, List.erase_cons_tail (by simpa using hk)]

theorem dictContains_dictRemove_false {α : Type} {l : List (String × α)} {d : String}
    (k : String) (h : dictContains l d = false) :
    dictContains (dictRemove l k) d = false := by
  induction l with
  | nil => rfl
  | cons p t ih =>
    simp only [dictContains, List.any_cons, Bool.or_eq_false_iff] at h
    simp only [dictRemove, List.filter_cons]
    by_cases hk : (p.1 != k) = true
    · rw [if_pos hk]
      simp only [dictContains, List.any_cons, Bool.or_eq_false_iff]
      exact ⟨h.1, ih h.2⟩
    · rw [if_neg hk]
      exact ih h.2

theorem dictContains_dictInsert_self {α : Type} (l : List (String × α)) (k : String) (v : α) :
    dictContains (dictInsert l k v) k = true := by
  rw [dictContains_eq_mem, mapFst_dictInsert]
  by_cases h : dictContains l k = true
  · rw [if_pos h]
    exact (dictContains_eq_mem l k).mp h
  · rw [if_neg h]
    simp

theorem dictContains_dictInsert_of_contains {α : Type} {l : List (String × α)} {d : String}
    (k : String) (v : α) (h : dictContains l d = true) :
    dictContains (dictInsert l k v) d = true := by
  rw [dictContains_eq_mem, mapFst_dictInsert]
  rw [dictContains_eq_mem] at h
  by_cases hc : dictContains l k = true
  · rw [if_pos hc]; exact h
  · rw [if_neg hc]; exact List.mem_append_left _ h

theorem nodup_append_single {l : List String} {a : String} (h : l.Nodup) (ha : a ∉ l) :
    (l ++ [a]).Nodup := by
  rw [List.nodup_append]
  refine ⟨h, List.nodup_singleton a, ?_⟩
  intro x hx hx'
  rw [List.mem_singleton] at hx'
  exact ha (hx' ▸ hx)

/-- C1 (code bug): after the startup flow adds `a.py` and materializes the
templates, a further `addFile` of `b.py` appends `b.py` to the Tracked File
List but leaves the archive's stored manifest text unchanged (source line
143 discards the regenerated text), so the stored manifest omits `b.py`
while a fresh regeneration from the current list includes it: the stored
manifest is stale after the mutation, contradicting the claim. -/
theorem manifest_stale_after_add :
    stC1.files = ["a.py", "pyscript.toml", "index.html", "b.py"] ∧
    stC1.zip.getD "pyscript.toml" =
      "\n\"a.py\" = ''\n\"pyscript.toml\" = ''\n\"index.html\" = ''" ∧
    (Project.parse_pyscript_cfg envA stC1).2.1 =
      "\n\"a.py\" = ''\n\"pyscript.toml\" = ''\n\"index.html\" = ''\n\"b.py\" = ''" ∧
    stC1.zip.getD "pyscript.toml" ≠ (Project.parse_pyscript_cfg envA stC1).2.1 := by
  decide

/-- C2 (counterexample): after `add_templates` runs, both derived-artifact
destination paths are members of the Tracked File List (source line 196
extends `self.files` with them), contradicting the claim that they are
never members. -/
theorem templates_in_tracked_list_cex :
    "pyscript.toml" ∈ stA2.files ∧ INDEX_LOC ∈ stA2.files := by
  decide

/-- C3 (code bug): after `putText` at destination `d` followed by `putFile`
at `d`, both a file-backed and a text entry exist at `d` (the source
deletes `texts[sourcePath]` instead of `texts[dest]`), and `putText` at a
destination holding only a file-backed entry raises `KeyError` (the source
deletes from `texts` instead of `files`) — so the two entry kinds are not
mutually exclusive per path as the claim states. -/
theorem zip_dual_entry_cex :
    dictContains ((zEmpty.add_text "T" "d").2.add_file "s" "d" (some "C")).2.files "d" = true ∧
    dictContains ((zEmpty.add_text "T" "d").2.add_file "s" "d" (some "C")).2.texts "d" = true ∧
    ((zEmpty.add_text "T" "d").2.add_file "s" "d" (some "C")).2.getD "d" = "C" ∧
    ((zEmpty.add_file "s" "d" (some "C")).2.add_text "T" "d").1 = some PyError.keyError := by
  decide

/-- C4 (counterexample): `addFile` of the TOML template path registers a
text entry at destination `pyscript.toml` without tracking it; a later
`addFile` of the source file `src/pyscript.toml` then finds `has` true,
skips the list append, yet creates a file-backed entry — a file-backed
entry whose destination is absent from the Tracked File List. -/
theorem tracked_list_cex :
    dictContains stC4b.zip.files "pyscript.toml" = true ∧
    "pyscript.toml" ∉ stC4b.files := by
  decide

/-- C5 (counterexample): the relative path `../other/f.txt` lies outside
the source root and matches no template, yet `addFile` does not ignore it:
`convert_path` falls through to `dest_path = path` for relative paths not
under the configured source prefix, so the path is tracked and archived. -/
theorem relative_outside_added_cex :
    (Project.add_file envA initSt "../other/f.txt" (some "x")).2.files = ["../other/f.txt"] ∧
    (Project.add_file envA initSt "../other/f.txt" (some "x")).2.zip.has "../other/f.txt"
      = true := by
  decide

/-- C6 (counterexample): when destination `index.html` holds both a
file-backed entry (a real source file `src/index.html`) and the generated
entry-page text entry, `build_zip` writes the member name `index.html`
twice — the serialized member names are not duplicate-free. -/
theorem duplicate_member_cex :
    stC6.zip.build_zip.map Prod.fst = ["a.py", "index.html", "pyscript.toml", "index.html"] ∧
    ¬ (stC6.zip.build_zip.map Prod.fst).Nodup := by
  decide

/-- C7 (code bug): serving `a.txt` whose content is the single character
e-acute yields success status but a Content-Length of 1 — the source sets
the header to `len(content)` in characters — while the body written on the
wire is `content.encode("utf-8")`, two bytes; the header does not equal the
exact byte length of the served content. -/
theorem content_length_chars_not_bytes :
    (ProjectServerHandler.do_get stC7 "/a.txt" true).status = 200 ∧
    (ProjectServerHandler.do_get stC7 "/a.txt" true).body = some "é" ∧
    (ProjectServerHandler.do_get stC7 "/a.txt" true).contentLength = some 1 ∧
    utf8ByteLength "é" = 2 ∧
    (ProjectServerHandler.do_get stC7 "/a.txt" true).contentLength ≠
      some (utf8ByteLength "é") := by
  decide

/-- C8 (counterexample): when the `runtime.remote_cdn` key is absent,
`add_src` fails with `KeyError` from the config lookup, not with the
unimplemented-configuration (`NotImplementedError`) error the claim
states; the state is still left unmutated. -/
theorem add_src_absent_key_cex :
    (Project.add_src envNoCdn initSt [("/proj/src/a.py", some "x")]).1
      = some PyError.keyError ∧
    (Project.add_src envNoCdn initSt [("/proj/src/a.py", some "x")]).2 = initSt ∧
    PyError.keyError ≠ PyError.notImplementedError := by
  decide

/-- C9: when `addFile` is called on a non-special path whose destination is
not yet present and the source file read fails, the raised error is the
I/O error, the destination has already been appended to the Tracked File
List, and no archive entry exists at the destination — the operation is
not atomic on error. -/
theorem add_file_not_atomic (env : Env) (s : St) (path dest : String)
    (h1 : Project.convert_path env path = some dest)
    (h2 : s.zip.has dest = false)
    (h3 : env.toml_exists = true) :
    (Project.add_file env s path none).1 = some PyError.ioError ∧
    dest ∈ (Project.add_file env s path none).2.files ∧
    (Project.add_file env s path none).2.zip.has dest = false := by
  simp only [ZipBuilder.has, Bool.or_eq_false_iff] at h2
  simp only [Project.add_file, h1, ZipBuilder.has, h2.1, h2.2, Bool.or_self, Bool.not_false,
    if_true, Project.parse_pyscript_cfg, h3, if_pos, ZipBuilder.add_file]
  refine ⟨by trivial, by simp, ?_⟩
  simp only [ZipBuilder.has, h2.1, Bool.false_or]
  exact dictContains_dictRemove_false path h2.2

/-- C9 witness: a fresh project, `addFile("/proj/src/a.py")` with an
unreadable source file. -/
theorem add_file_not_atomic_witness :
    (Project.add_file envA initSt "/proj/src/a.py" none).1 = some PyError.ioError ∧
    "a.py" ∈ (Project.add_file envA initSt "/proj/src/a.py" none).2.files ∧
    (Project.add_file envA initSt "/proj/src/a.py" none).2.zip.has "a.py" = false :=
  add_file_not_atomic envA initSt "/proj/src/a.py" "a.py" (by decide) (by decide) (by decide)

/-- C5 (amended): an ABSOLUTE path outside the source root that matches
none of the three template paths is silently ignored by `addFile`: both
the Tracked File List and the Virtual Archive are left unchanged. (The
claim's extension to relative paths fails: see the counterexample.) -/
theorem outside_absolute_ignored (env : Env) (s : St) (p : String) (c : Option String)
    (h1 : isAbsolute p = true)
    (h2 : isRelativeTo p env.src_path = false)
    (h3 : p ≠ env.toml_cfg) (h4 : p ≠ env.json_cfg) (h5 : p ≠ env.index_template) :
    Project.add_file env s p c = (none, s) := by
  simp [Project.add_file, Project.convert_path, Project.handle_unknwon, h1, h2, h3, h4, h5]

/-- C5 witness: `/elsewhere/x.txt` under `envA` is ignored. -/
theorem outside_absolute_ignored_witness :
    Project.add_file envA initSt "/elsewhere/x.txt" (some "c") = (none, initSt) :=
  outside_absolute_ignored envA initSt "/elsewhere/x.txt" (some "c") (by decide) (by decide)
    (by decide) (by decide) (by decide)

/-- C8 (amended): with `runtime.remote_cdn` present-and-false `add_src`
raises `NotImplementedError`, and with the key absent it raises `KeyError`
from the configuration lookup; in both cases it fails before visiting any
source file, leaving the state unchanged (no tracked-list or archive
mutation). -/
theorem add_src_requires_remote_cdn (env : Env) (s : St) (fs : List (String × Option String))
    (h : env.runtime_remote_cdn = some false ∨ env.runtime_remote_cdn = none) :
    Project.add_src env s fs =
      (some (if env.runtime_remote_cdn = some false then PyError.notImplementedError
        else PyError.keyError), s) := by
  rcases h with h | h <;> simp [Project.add_src, h]

/-- C8 witness: absent key under `envNoCdn`. -/
theorem add_src_requires_remote_cdn_witness :
    Project.add_src envNoCdn initSt [("/proj/src/a.py", some "x")] =
      (some (if envNoCdn.runtime_remote_cdn = some false then PyError.notImplementedError
        else PyError.keyError), initSt) :=
  add_src_requires_remote_cdn envNoCdn initSt [("/proj/src/a.py", some "x")] (Or.inr rfl)

/-- C10: whenever the TOML manifest template is absent and the JSON one is
present, manifest regeneration succeeds and sets the manifest destination
filename to the literal misspelled string `pyscipt.json`, and the entry
page's substitution context maps the `pyscript_config` placeholder to that
same misspelled name. -/
theorem json_cfg_misspelled (env : Env) (s : St)
    (h1 : env.toml_exists = false) (h2 : env.json_exists = true) :
    (Project.parse_pyscript_cfg env s).1 = none ∧
    (Project.parse_pyscript_cfg env s).2.2.pyscript_config = "pyscipt.json" ∧
    dictGet (Project.indexContext env (Project.parse_pyscript_cfg env s).2.2)
      "pyscript_config" = some "pyscipt.json" := by
  simp [Project.parse_pyscript_cfg, h1, h2, Project.indexContext, dictGet, List.find?]

/-- C10 witness: the JSON-only environment `envJ`. -/
theorem json_cfg_misspelled_witness :
    (Project.parse_pyscript_cfg envJ initSt).1 = none ∧
    (Project.parse_pyscript_cfg envJ initSt).2.2.pyscript_config = "pyscipt.json" ∧
    dictGet (Project.indexContext envJ (Project.parse_pyscript_cfg envJ initSt).2.2)
      "pyscript_config" = some "pyscipt.json" :=
  json_cfg_misspelled envJ initSt rfl rfl

/-- C2 (amended): `add_templates` registers both derived artifacts in the
Virtual Archive AND appends their destination paths — the pre-call value of
`pyscript_config` and the entry-page path — to the Tracked File List
(source line 196), so the derived paths become list members. Stated for
states where neither destination is file-backed (as in the startup flow),
so both `add_text` calls succeed. -/
theorem add_templates_appends_derived (env : Env) (s : St)
    (h1 : env.toml_exists = true)
    (h2 : dictContains s.zip.files "pyscript.toml" = false)
    (h3 : dictContains s.zip.files INDEX_LOC = false) :
    (Project.add_templates env s).1 = none ∧
    (Project.add_templates env s).2.files = s.files ++ [s.pyscript_config, INDEX_LOC] ∧
    (Project.add_templates env s).2.zip.has "pyscript.toml" = true ∧
    (Project.add_templates env s).2.zip.has INDEX_LOC = true := by
  simp only [Project.add_templates, Project.parse_pyscript_cfg, h1, if_true,
    ZipBuilder.add_text, h2, h3, Bool.false_eq_true, if_false, ZipBuilder.has,
    Bool.or_eq_true]
  refine ⟨by trivial, by trivial, Or.inr ?_, Or.inr ?_⟩
  · exact dictContains_dictInsert_of_contains INDEX_LOC _ (dictContains_dictInsert_self _ _ _)
  · exact dictContains_dictInsert_self _ _ _

/-- C2 witness: the startup flow state `stA1` (one tracked source file,
no derived artifacts registered yet). -/
theorem add_templates_appends_derived_witness :
    (Project.add_templates envA stA1).1 = none ∧
    (Project.add_templates envA stA1).2.files = stA1.files ++ [stA1.pyscript_config, INDEX_LOC] ∧
    (Project.add_templates envA stA1).2.zip.has "pyscript.toml" = true ∧
    (Project.add_templates envA stA1).2.zip.has INDEX_LOC = true :=
  add_templates_appends_derived envA stA1 rfl (by decide) (by decide)

/-- C6 (amended): provided no destination holds both a file-backed and a
text entry, `build_zip` emits every entry's member name exactly once, and
when the Tracked File List together with the two derived-artifact paths
covers exactly the archive's keys, the member-name set equals
`TrackedFileList ∪ {manifestPath, entryPagePath}`. (Without the
disjointness proviso a member is written twice: see the counterexample.) -/
theorem build_zip_members (z : ZipBuilder) (l : List String) (m i : String)
    (h1 : (z.files.map Prod.fst).Nodup)
    (h2 : (z.texts.map Prod.fst).Nodup)
    (h3 : ∀ k ∈ z.files.map Prod.fst, k ∉ z.texts.map Prod.fst)
    (h4 : ∀ k ∈ l ++ [m, i], k ∈ z.files.map Prod.fst ++ z.texts.map Prod.fst)
    (h5 : ∀ k ∈ z.files.map Prod.fst ++ z.texts.map Prod.fst, k ∈ l ++ [m, i]) :
    (z.build_zip.map Prod.fst).Nodup ∧
    (∀ k ∈ z.build_zip.map Prod.fst, k ∈ l ++ [m, i]) ∧
    (∀ k ∈ l ++ [m, i], k ∈ z.build_zip.map Prod.fst) := by
  have hm : z.build_zip.map Prod.fst = z.files.map Prod.fst ++ z.texts.map Prod.fst := by
    simp only [ZipBuilder.build_zip, List.map_append, List.map_map]
    rfl
  rw [hm]
  refine ⟨?_, h5, h4⟩
  rw [List.nodup_append]
  refine ⟨h1, h2, ?_⟩
  intro a ha
  exact h3 a ha

/-- C6 witness: the startup state `stA2` (tracked `a.py` plus the two
derived artifacts), whose archive keys are pairwise distinct. -/
theorem build_zip_members_witness :
    (stA2.zip.build_zip.map Prod.fst).Nodup ∧
    (∀ k ∈ stA2.zip.build_zip.map Prod.fst,
      k ∈ stA2.files ++ ["pyscript.toml", INDEX_LOC]) ∧
    (∀ k ∈ stA2.files ++ ["pyscript.toml", INDEX_LOC],
      k ∈ stA2.zip.build_zip.map Prod.fst) :=
  build_zip_members stA2.zip stA2.files "pyscript.toml" INDEX_LOC (by decide) (by decide)
    (by decide) (by decide) (by decide)

theorem add_file_step (env : Env) (s : St) (p c d : String)
    (henv : env.toml_exists = true) (hI : StInv s)
    (hd : Project.convert_path env p = some d) :
    (Project.add_file env s p (some c)).1 = none ∧
    StInv (Project.add_file env s p (some c)).2 ∧
    (Project.add_file env s p (some c)).2.files = refAdd s.files d := by
  obtain ⟨hf, ht, hnd⟩ := hI
  have htp : dictRemove s.zip.texts p = [] := by rw [ht]; rfl
  by_cases hmem : d ∈ s.files
  · have hcf : dictContains s.zip.files d = true := by
      rw [dictContains_eq_mem, ← hf]; exact hmem
    have hhas : s.zip.has d = true := by simp [ZipBuilder.has, hcf]
    simp only [Project.add_file, hd, hhas, Bool.not_true, Bool.false_eq_true, if_false,
      ZipBuilder.add_file]
    refine ⟨by trivial, ⟨?_, ?_, hnd⟩, ?_⟩
    · rw [mapFst_dictInsert]
      rw [if_pos hcf]
      exact hf
    · exact htp
    · rw [refAdd, if_pos hmem]
  · have hcf : dictContains s.zip.files d = false := by
      rw [← Bool.not_eq_true, dictContains_eq_mem, ← hf]
      exact hmem
    have hct : dictContains s.zip.texts d = false := by rw [ht]; rfl
    have hhas : s.zip.has d = false := by simp [ZipBuilder.has, hcf, hct]
    simp only [Project.add_file, hd, hhas, Bool.not_false, if_true,
      Project.parse_pyscript_cfg, henv, ZipBuilder.add_file]
    refine ⟨by trivial, ⟨?_, ?_, ?_⟩, ?_⟩
    · rw [mapFst_dictInsert]
      rw [if_neg (by rw [hcf]; exact Bool.false_ne_true)]
      rw [hf]
    · exact htp
    · exact nodup_append_single hnd hmem
    · rw [refAdd, if_neg hmem]

theorem del_file_step (env : Env) (s : St) (p d : String)
    (henv : env.toml_exists = true) (hI : StInv s)
    (hd : Project.convert_path env p = some d) :
    (Project.del_file env s p).1 = none ∧
    StInv (Project.del_file env s p).2 ∧
    (Project.del_file env s p).2.files = s.files.erase d := by
  obtain ⟨hf, ht, hnd⟩ := hI
  by_cases hmem : d ∈ s.files
  · have hcf : dictContains s.zip.files d = true := by
      rw [dictContains_eq_mem, ← hf]; exact hmem
    have hhas : s.zip.has d = true := by simp [ZipBuilder.has, hcf]
    simp only [Project.del_file, hd, hhas, Bool.not_true, Bool.false_eq_true, if_false,
      hmem, if_true, ZipBuilder.del_entry, Project.parse_pyscript_cfg, henv]
    refine ⟨by trivial, ⟨?_, ?_, hnd.erase d⟩, by trivial⟩
    · rw [mapFst_dictRemove (hf ▸ hnd), hf]
    · rw [ht]; rfl
  · have hcf : dictContains s.zip.files d = false := by
      rw [← Bool.not_eq_true, dictContains_eq_mem, ← hf]
      exact hmem
    have hct : dictContains s.zip.texts d = false := by rw [ht]; rfl
    have hhas : s.zip.has d = false := by simp [ZipBuilder.has, hcf, hct]
    simp only [Project.del_file, hd, hhas, Bool.not_false, if_true]
    exact ⟨by trivial, ⟨hf, ht, hnd⟩, (List.erase_of_not_mem hmem).symm⟩

theorem runOps_inv (env : Env) (henv : env.toml_exists = true) :
    ∀ (ops : List FsOp) (s : St), StInv s →
      (∀ op ∈ ops, Project.convert_path env op.path ≠ none) →
      (runOps env s ops).1 = none ∧ StInv (runOps env s ops).2 ∧
      (runOps env s ops).2.files = ops.foldl (refStep env) s.files := by
  intro ops
  induction ops with
  | nil => exact fun s hI _ => ⟨rfl, hI, rfl⟩
  | cons op rest ih =>
    intro s hI hops
    have hop := hops op (List.mem_cons_self op rest)
    cases hco : Project.convert_path env op.path with
    | none => exact absurd hco hop
    | some d =>
      have hrest : ∀ o ∈ rest, Project.convert_path env o.path ≠ none :=
        fun o ho => hops o (List.mem_cons_of_mem _ ho)
      cases op with
      | add p c =>
        have hco' : Project.convert_path env p = some d := hco
        have hstep := add_file_step env s p c d henv hI hco'
        have hmain := ih (Project.add_file env s p (some c)).2 hstep.2.1 hrest
        have hred : runOps env s (FsOp.add p c :: rest) =
            runOps env (Project.add_file env s p (some c)).2 rest := by
          simp only [runOps, runStep]
          rw [hstep.1]
        have hfold : refStep env s.files (FsOp.add p c) = refAdd s.files d := by
          simp [refStep, hco']
        rw [hred, List.foldl_cons, hfold, ← hstep.2.2]
        exact hmain
      | del p =>
        have hco' : Project.convert_path env p = some d := hco
        have hstep := del_file_step env s p d henv hI hco'
        have hmain := ih (Project.del_file env s p).2 hstep.2.1 hrest
        have hred : runOps env s (FsOp.del p :: rest) =
            runOps env (Project.del_file env s p).2 rest := by
          simp only [runOps, runStep]
          rw [hstep.1]
        have hfold : refStep env s.files (FsOp.del p) = s.files.erase d := by
          simp [refStep, hco']
        rw [hred, List.foldl_cons, hfold, ← hstep.2.2]
        exact hmain

/-- C4 (amended): for every sequence of `addFile`/`removeFile` calls from
the initial project state in which every call resolves to a non-special
destination (so the archive holds no text entries), no error is raised and
afterwards the Tracked File List is duplicate-free, equals exactly the
destination paths of the file-backed entries (in order), and equals the
reference fold in which an add appends the destination iff absent and a
delete erases it — i.e. order of first addition, with a removed-then-
re-added path at the end. (When a special template call has registered a
text entry, a colliding `addFile` breaks the correspondence: see the
counterexample.) -/
theorem tracked_list_ok (env : Env) (ops : List FsOp)
    (henv : env.toml_exists = true)
    (hops : ∀ op ∈ ops, Project.convert_path env op.path ≠ none) :
    (runOps env initSt ops).1 = none ∧
    (runOps env initSt ops).2.files.Nodup ∧
    (runOps env initSt ops).2.files = (runOps env initSt ops).2.zip.files.map Prod.fst ∧
    (runOps env initSt ops).2.zip.texts = [] ∧
    (runOps env initSt ops).2.files = ops.foldl (refStep env) [] := by
  have h := runOps_inv env henv ops initSt ⟨rfl, rfl, List.nodup_nil⟩ hops
  obtain ⟨h1, ⟨h2, h3, h4⟩, h5⟩ := h
  exact ⟨h1, h4, h2, h3, h5⟩

/-- C4 witness: a sequence that adds two files, re-adds one, deletes it,
and adds it again (so the re-added path moves to the end of the list). -/
theorem tracked_list_ok_witness :
    (runOps envA initSt opsW).1 = none ∧
    (runOps envA initSt opsW).2.files.Nodup ∧
    (runOps envA initSt opsW).2.files = (runOps envA initSt opsW).2.zip.files.map Prod.fst ∧
    (runOps envA initSt opsW).2.zip.texts = [] ∧
    (runOps envA initSt opsW).2.files = opsW.foldl (refStep envA) [] :=
  tracked_list_ok envA opsW rfl (by decide)
